import Mathlib

/-!
Verification development for the Limitless MCP server repository
(src/limitless-client.ts and src/server.ts).

The TypeScript source is shallowly embedded: every pure computation of the
source becomes a Lean function, the network is made explicit by passing the
sequence of responses the remote store would produce, and thrown exceptions
become Except values.  JavaScript truthiness quirks that matter to the
behaviour (empty strings being falsy, Array.slice with a possibly negative
end index) are embedded faithfully.
-/

/-! ## Data model (interfaces of limitless-client.ts) -/

/-- Embeds interface LifelogContentNode: a recursive transcript/heading tree,
passed through opaquely by the core. -/
inductive LifelogContentNode where
  | node (type : String) (content : Option String)
      (startTime endTime : Option String)
      (startOffsetMs endOffsetMs : Option Int)
      (children : List LifelogContentNode)
      (speakerName : Option String) (speakerIdentifier : Option String)

/-- Embeds interface Lifelog: one record of the remote store. -/
structure Lifelog where
  id : String
  title : Option String := none
  markdown : Option String := none
  startTime : String
  endTime : String
  contents : Option (List LifelogContentNode) := none

/-- Embeds the data field of interface LifelogsResponse. -/
structure LifelogsData where
  lifelogs : List Lifelog

/-- Embeds the inner meta.lifelogs object of interface LifelogsResponse. -/
structure LifelogsMetaInner where
  nextCursor : Option String := none
  count : Nat := 0

/-- Embeds the meta field of interface LifelogsResponse.  The source reads it
through optional chaining, so the nested objects are modelled as optional. -/
structure LifelogsMeta where
  lifelogs : Option LifelogsMetaInner := none

/-- Embeds interface LifelogsResponse.  The source accesses response.data and
response.meta defensively with optional chaining, hence the Option wrappers. -/
structure LifelogsResponse where
  data : Option LifelogsData := none
  meta : Option LifelogsMeta := none

/-- Embeds interface LifelogParams: the options bag accepted by getLifelogs.
The field of the source named end is written endP because end is a Lean
keyword. -/
structure LifelogParams where
  limit : Option Int := none
  includeMarkdown : Option Bool := none
  includeHeadings : Option Bool := none
  date : Option String := none
  start : Option String := none
  endP : Option String := none
  timezone : Option String := none
  direction : Option String := none
  cursor : Option String := none

/-- Embeds class LimitlessApiError: message, optional numeric status and
optional response body. -/
structure LimitlessApiError where
  message : String
  status : Option Nat := none
  responseBody : Option String := none

/-- Outcome of one attempted network fetch, as seen by makeApiRequest after
the fetch call: a parsed ok body, a non-ok HTTP response, an abort caused by
the 120 second deadline, or a transport-level failure. -/
inductive FetchOutcome (T : Type) where
  | ok (body : T)
  | httpError (status : Nat) (statusText : String) (body : String)
  | timeout
  | networkError (message : String)

/-! ## Transport client (makeApiRequest, getLifelogById) -/

/-- Embeds the error thrown by makeApiRequest when the API key is missing
(limitless-client.ts line 85). -/
def missingKeyError : LimitlessApiError :=
  { message := "Limitless API key is missing. Please set LIMITLESS_API_KEY environment variable.",
    status := some 401 }

/-- Embeds the message of the error thrown for a non-ok HTTP response
(limitless-client.ts line 122). -/
def apiErrorMessage (status : Nat) (statusText : String) : String :=
  "Limitless API Error: " ++ (toString status ++ (" " ++ statusText))

/-- Embeds the message of the timeout error (limitless-client.ts line 133),
with API_TIMEOUT_MS = 120000. -/
def timeoutMessage : String := "Limitless API request timed out after 120000ms"

/-- Embeds the message of the generic transport error
(limitless-client.ts line 137). -/
def networkErrorMessage (inner : String) : String :=
  "Network error calling Limitless API: " ++ inner

/-- Embeds makeApiRequest (limitless-client.ts lines 82-139).  The empty-key
check happens before the fetch is issued; the response argument stands for
whatever the network would return for the dispatched request, so an outcome
that is independent of it was decided before any network activity. -/
def makeApiRequest {T : Type} (apiKey : String) (response : FetchOutcome T) :
    Except LimitlessApiError T :=
  if apiKey = "" then
    .error missingKeyError
  else
    match response with
    | .ok body => .ok body
    | .httpError status statusText body =>
        .error { message := apiErrorMessage status statusText,
                 status := some status, responseBody := some body }
    | .timeout => .error { message := timeoutMessage, status := some 504 }
    | .networkError msg => .error { message := networkErrorMessage msg }

/-- Options accepted by getLifelogById (Pick of includeMarkdown and
includeHeadings from LifelogParams). -/
structure ByIdOptions where
  includeMarkdown : Option Bool := none
  includeHeadings : Option Bool := none

/-- Embeds the query parameters built by getLifelogById
(limitless-client.ts lines 204-207): both inclusion flags default to true. -/
def byIdParams (o : ByIdOptions) : Bool × Bool :=
  (o.includeMarkdown.getD true, o.includeHeadings.getD true)

/-- Embeds the error thrown by getLifelogById when the ok response carries no
lifelog (limitless-client.ts line 210). -/
def notFoundError (lifelogId : String) : LimitlessApiError :=
  { message := "Lifelog with ID " ++ (lifelogId ++ " not found"), status := some 404 }

/-- Embeds getLifelogs response body access response.data.lifelog through the
optional chain of the source: the body is the lifelog when data and lifelog
are both present.  The response argument is the network outcome of the single
request getLifelogById dispatches. -/
def getLifelogById (apiKey lifelogId : String) (_options : ByIdOptions)
    (response : FetchOutcome (Option Lifelog)) : Except LimitlessApiError Lifelog :=
  match makeApiRequest apiKey response with
  | .error e => .error e
  | .ok body =>
      match body with
      | some log => .ok log
      | none => .error (notFoundError lifelogId)

/-! ## Pagination aggregator (getLifelogs) -/

/-- Resolved request options computed once before the pagination loop
(limitless-client.ts lines 148-156). -/
structure ResolvedOptions where
  includeMarkdown : Bool
  includeHeadings : Bool
  date : Option String
  start : Option String
  endP : Option String
  direction : String
  timezone : Option String

/-- Embeds the originalOptions object of getLifelogs: inclusion flags default
to true, direction defaults to desc, timezone falls back to the locally
resolved default zone. -/
def resolveOptions (o : LifelogParams) (defaultTimezone : Option String) :
    ResolvedOptions :=
  { includeMarkdown := o.includeMarkdown.getD true,
    includeHeadings := o.includeHeadings.getD true,
    date := o.date,
    start := o.start,
    endP := o.endP,
    direction := o.direction.getD "desc",
    timezone := match o.timezone with | some t => some t | none => defaultTimezone }

/-- Query parameters of one page request built inside the loop
(limitless-client.ts lines 169-180). -/
structure RequestParams where
  limit : Int
  includeMarkdown : Bool
  includeHeadings : Bool
  date : Option String
  start : Option String
  endP : Option String
  direction : String
  timezone : Option String
  cursor : Option String
deriving DecidableEq

/-- Embeds the JavaScript truthiness test used by the source on optional
strings: undefined and the empty string are both falsy. -/
def jsFalsyOptStr : Option String → Bool
  | none => true
  | some s => s = ""

/-- Embeds the statement delete params.timezone executed when the resolved
timezone is falsy (limitless-client.ts line 180). -/
def jsParamTimezone : Option String → Option String
  | none => none
  | some t => if t = "" then none else some t

/-- Embeds the params object of one page request; the timezone key is removed
when falsy. -/
def mkParams (ro : ResolvedOptions) (fetchLimit : Int) (cursor : Option String) :
    RequestParams :=
  { limit := fetchLimit,
    includeMarkdown := ro.includeMarkdown,
    includeHeadings := ro.includeHeadings,
    date := ro.date,
    start := ro.start,
    endP := ro.endP,
    direction := ro.direction,
    timezone := jsParamTimezone ro.timezone,
    cursor := cursor }

/-- Embeds the loop-head break of getLifelogs (limitless-client.ts line 165):
remainingNeeded is limit minus collected, and the loop breaks before fetching
when a limit is set and remainingNeeded is not positive. -/
def stopBeforeFetch (limit : Option Int) (collected : Nat) : Bool :=
  match limit with
  | some l => decide (l - (collected : Int) ≤ 0)
  | none => false

/-- Embeds fetchLimit computation (limitless-client.ts line 167): the minimum
of the fixed batch size 10 and the remaining amount, where a missing limit
behaves as unbounded remaining and yields the batch size itself. -/
def fetchLimitFor (limit : Option Int) (collected : Nat) : Int :=
  match limit with
  | some l => min 10 (l - (collected : Int))
  | none => 10

/-- Embeds the post-append limit test of the break condition
(limitless-client.ts line 192): limit is set and collected reached it. -/
def reachedLimit (limit : Option Int) (collected : Nat) : Bool :=
  match limit with
  | some l => decide (l ≤ (collected : Nat))
  | none => false

/-- Embeds response.data?.lifelogs ?? [] (limitless-client.ts line 185). -/
def pageLogs (resp : LifelogsResponse) : List Lifelog :=
  (resp.data.map LifelogsData.lifelogs).getD []

/-- Embeds response.meta?.lifelogs?.nextCursor (limitless-client.ts
line 190). -/
def pageNextCursor (resp : LifelogsResponse) : Option String :=
  (resp.meta.bind LifelogsMeta.lifelogs).bind LifelogsMetaInner.nextCursor

/-- Embeds the while loop of getLifelogs (limitless-client.ts lines 161-196).
The responses list supplies, in order, the network outcome of each request the
loop dispatches; the returned trace records the query parameters of every
dispatched request.  A none result means the loop asked for a further page
beyond the supplied responses, so the run is not determined by the input;
some (.error e) is the exception aborting the aggregation; some (.ok r) is a
completed loop. -/
def lifelogsLoop (apiKey : String) (ro : ResolvedOptions) (limit : Option Int) :
    List Lifelog → List RequestParams → Option String →
    List (FetchOutcome LifelogsResponse) →
    Option (Except LimitlessApiError (List Lifelog × List RequestParams))
  | acc, trace, _cursor, [] =>
      if stopBeforeFetch limit acc.length then some (.ok (acc, trace)) else none
  | acc, trace, cursor, r :: rest =>
      if stopBeforeFetch limit acc.length then some (.ok (acc, trace))
      else
        let fl := fetchLimitFor limit acc.length
        let trace2 := trace ++ [mkParams ro fl cursor]
        match makeApiRequest apiKey r with
        | .error e => some (.error e)
        | .ok resp =>
            let lifelogs := pageLogs resp
            let acc2 := acc ++ lifelogs
            let nextCursor := pageNextCursor resp
            if jsFalsyOptStr nextCursor || decide ((lifelogs.length : Int) < fl)
                || reachedLimit limit acc2.length then
              some (.ok (acc2, trace2))
            else
              lifelogsLoop apiKey ro limit acc2 trace2 nextCursor rest

/-- Embeds JavaScript Array.prototype.slice(0, e): a negative end index counts
from the end of the array, and the result is a prefix of the array. -/
def jsSliceTo {α : Type} (xs : List α) (e : Int) : List α :=
  xs.take (max 0 (if e < 0 then (xs.length : Int) + e else e)).toNat

/-- Embeds the final defensive trim of getLifelogs (limitless-client.ts
line 198). -/
def applyLimitSlice (limit : Option Int) (xs : List Lifelog) : List Lifelog :=
  match limit with
  | some l => jsSliceTo xs l
  | none => xs

/-- Embeds getLifelogs (limitless-client.ts lines 141-199).  The
defaultTimezone argument stands for the locally resolved IANA zone of
getDefaultTimezone; responses supply the network outcomes page by page. -/
def getLifelogs (apiKey : String) (options : LifelogParams)
    (defaultTimezone : Option String)
    (responses : List (FetchOutcome LifelogsResponse)) :
    Option (Except LimitlessApiError (List Lifelog × List RequestParams)) :=
  match lifelogsLoop apiKey (resolveOptions options defaultTimezone)
      options.limit [] [] options.cursor responses with
  | none => none
  | some (.error e) => some (.error e)
  | some (.ok (all, trace)) => some (.ok (applyLimitSlice options.limit all, trace))

/-- Summary of a getLifelogs run used by concrete evaluations: the collected
length and the requested batch sizes, with some none standing for an aborted
run. -/
def runSummary
    (r : Option (Except LimitlessApiError (List Lifelog × List RequestParams))) :
    Option (Option (Nat × List Int)) :=
  match r with
  | none => none
  | some (.error _) => some none
  | some (.ok (logs, trace)) => some (some (logs.length, trace.map RequestParams.limit))

/-- Builds the ok network outcome of a store page holding the given records
and continuation cursor. -/
def okPage (logs : List Lifelog) (cursor : Option String) :
    FetchOutcome LifelogsResponse :=
  .ok { data := some ⟨logs⟩,
        meta := some ⟨some { nextCursor := cursor, count := logs.length }⟩ }

/-- Concrete record used by the evaluated examples. -/
def mkLog (i : Nat) : Lifelog :=
  { id := toString i, startTime := "2025-01-01T00:00:00Z", endTime := "2025-01-01T01:00:00Z" }

/-! ## Server layer (server.ts) -/

/-- Outcome of the startup credential check (server.ts lines 14-19): a missing
or empty LIMITLESS_API_KEY environment variable terminates the process before
any operation can run. -/
inductive StartupOutcome where
  | fatalConfigError
  | running (apiKey : String)
deriving DecidableEq

/-- Embeds the environment-variable check of server.ts lines 14-19; the
JavaScript test !limitlessApiKey is true for undefined and for the empty
string. -/
def serverStartup (envApiKey : Option String) : StartupOutcome :=
  match envApiKey with
  | none => .fatalConfigError
  | some k => if k = "" then .fatalConfigError else .running k

/-- Embeds the limit check of CommonListArgsSchema (server.ts line 24):
z.number().int().positive().max(100).optional(), over an integer input. -/
def zodListLimitValid : Option Int → Bool
  | none => true
  | some n => decide (0 < n) && decide (n ≤ 100)

/-- Embeds the fetch_limit check of SearchArgsSchema (server.ts line 52):
z.number().int().positive().max(100), over an integer input. -/
def zodFetchLimitValid : Option Int → Bool
  | none => true
  | some n => decide (0 < n) && decide (n ≤ 100)

/-- Arguments of limitless_search_lifelogs after schema parsing
(SearchArgsSchema, server.ts lines 50-57).  fetch_limit is kept optional
because the handler re-applies the default with the nullish coalescing
operator; the boolean inclusion flags carry the zod defaults. -/
structure SearchArgs where
  search_term : String
  fetch_limit : Option Int := none
  limit : Option Int := none
  timezone : Option String := none
  includeMarkdown : Bool := true
  includeHeadings : Bool := true

/-- Embeds the criteria the search handler passes to getLifelogs
(server.ts lines 178-181): limit is the fetch scope defaulted to 20,
direction is forced to desc and includeMarkdown is hard-coded to true. -/
def searchCriteria (args : SearchArgs) : LifelogParams :=
  { limit := some (args.fetch_limit.getD 20),
    direction := some "desc",
    timezone := args.timezone,
    includeMarkdown := some true,
    includeHeadings := some args.includeHeadings }

/-- Embeds the criteria built by the limitless_list_lifelogs_by_date handler
(server.ts line 154); the schema of that tool has no start or end field. -/
def listByDateCriteria (date : String) (limit : Option Int)
    (timezone : Option String) (includeMarkdown includeHeadings : Bool)
    (direction : Option String) : LifelogParams :=
  { date := some date, limit := limit, timezone := timezone,
    includeMarkdown := some includeMarkdown,
    includeHeadings := some includeHeadings,
    direction := some (direction.getD "asc") }

/-- Embeds the criteria built by the limitless_list_lifelogs_by_range handler
(server.ts line 162); the schema of that tool has no date field. -/
def listByRangeCriteria (start endP : String) (limit : Option Int)
    (timezone : Option String) (includeMarkdown includeHeadings : Bool)
    (direction : Option String) : LifelogParams :=
  { start := some start, endP := some endP, limit := limit, timezone := timezone,
    includeMarkdown := some includeMarkdown,
    includeHeadings := some includeHeadings,
    direction := some (direction.getD "asc") }

/-- Case-folding of one character, standing for the per-character effect of
JavaScript String.prototype.toLowerCase. -/
def strToLower (s : String) : String := ⟨s.data.map Char.toLower⟩

/-- Substring occurrence test on character lists, standing for
String.prototype.includes: the needle occurs contiguously in the haystack,
and the empty needle always occurs. -/
def containsSub (need : List Char) : List Char → Bool
  | [] => need.isPrefixOf []
  | c :: rest => need.isPrefixOf (c :: rest) || containsSub need rest

/-- Embeds hay.includes(pat) on strings. -/
def strIncludes (hay pat : String) : Bool := containsSub pat.data hay.data

/-- Embeds the filter predicate of the search handler (server.ts line 184):
log.title?.toLowerCase().includes(term) ||
(log.markdown && log.markdown.toLowerCase().includes(term)).
An absent title never matches; the markdown conjunct first tests the
JavaScript truthiness of the markdown string, so an empty markdown string
never matches through the body test. -/
def matchesTerm (term : String) (log : Lifelog) : Bool :=
  (match log.title with
   | some t => strIncludes (strToLower t) (strToLower term)
   | none => false)
  || (match log.markdown with
      | some m => !(m = "") && strIncludes (strToLower m) (strToLower term)
      | none => false)

/-- Embeds the result truncation of the search handler (server.ts lines
185-186): finalLimit ? matchingLogs.slice(0, finalLimit) : matchingLogs,
where an absent limit and the number zero are both falsy. -/
def jsTruncate (xs : List Lifelog) : Option Int → List Lifelog
  | none => xs
  | some n => if n = 0 then xs else jsSliceTo xs n

/-- Embeds the matching-and-truncation pipeline of the search handler
(server.ts lines 183-186). -/
def searchResults (args : SearchArgs) (logsToSearch : List Lifelog) : List Lifelog :=
  jsTruncate (logsToSearch.filter (matchesTerm args.search_term)) args.limit

/-- Rendered outcome of one search invocation whose window fetch succeeded
(server.ts lines 182-195): the empty-window message, the no-match message
carrying the scanned count, or the results message carrying the match count,
the scanned count, the displayed records and the display limit. -/
inductive SearchOutcome where
  | emptyWindow
  | noMatches (term : String) (scanned : Nat)
  | results (matchCount : Nat) (scanned : Nat) (logs : List Lifelog)
      (displayLimit : Option Int)

/-- Scanned-candidates count surfaced by a search outcome, when one is
surfaced. -/
def SearchOutcome.scanned : SearchOutcome → Option Nat
  | .emptyWindow => none
  | .noMatches _ s => some s
  | .results _ s _ _ => some s

/-- Match count surfaced by a search outcome: the no-match message conveys
zero matches. -/
def SearchOutcome.matchCount : SearchOutcome → Option Nat
  | .emptyWindow => none
  | .noMatches _ _ => some 0
  | .results c _ _ _ => some c

/-- Embeds the response construction of the search handler for a successful
window fetch (server.ts lines 182-195). -/
def searchOutcome (args : SearchArgs) (logsToSearch : List Lifelog) : SearchOutcome :=
  if logsToSearch.length = 0 then .emptyWindow
  else
    let limited := searchResults args logsToSearch
    if limited.length = 0 then .noMatches args.search_term logsToSearch.length
    else .results limited.length logsToSearch.length limited args.limit

/-- Embeds the whole search tool handler (server.ts lines 174-198): fetch the
recency window through getLifelogs with the search criteria, then scan it
locally.  A none result again means the supplied responses did not determine
the run. -/
def searchRun (apiKey : String) (args : SearchArgs) (defaultTimezone : Option String)
    (responses : List (FetchOutcome LifelogsResponse)) :
    Option (Except LimitlessApiError SearchOutcome) :=
  match getLifelogs apiKey (searchCriteria args) defaultTimezone responses with
  | none => none
  | some (.error e) => some (.error e)
  | some (.ok (logsToSearch, _)) => some (.ok (searchOutcome args logsToSearch))

/-! ## Helper lemmas -/

lemma data_append_eq (s t : String) : (s ++ t).data = s.data ++ t.data :=
  String.data_append s t

lemma take_data_append (a s : String) (n : Nat) (h : n ≤ a.data.length) :
    (a ++ s).data.take n = a.data.take n := by
  rw [data_append_eq]
  exact List.take_append_of_le_length h

lemma append_ne_append (a s b t : String) (n : Nat) (ha : n ≤ a.data.length)
    (hb : n ≤ b.data.length) (h : a.data.take n ≠ b.data.take n) :
    a ++ s ≠ b ++ t := by
  intro he
  apply h
  rw [← take_data_append a s n ha, ← take_data_append b t n hb, he]

lemma append_ne_lit (a s b : String) (n : Nat) (ha : n ≤ a.data.length)
    (h : a.data.take n ≠ b.data.take n) :
    a ++ s ≠ b := by
  intro he
  apply h
  rw [← take_data_append a s n ha, he]

lemma jsSliceTo_length_le {α : Type} (xs : List α) (e : Int) (he : 0 ≤ e) :
    ((jsSliceTo xs e).length : Int) ≤ e := by
  unfold jsSliceTo
  rw [if_neg (not_lt.mpr he)]
  have h1 : (xs.take (max 0 e).toNat).length ≤ (max 0 e).toNat :=
    List.length_take_le _ _
  have h2 : ((max 0 e).toNat : Int) = max 0 e := Int.toNat_of_nonneg (le_max_left 0 e)
  have h3 : max 0 e = e := max_eq_right he
  omega

lemma jsSliceTo_sublist {α : Type} (xs : List α) (e : Int) :
    (jsSliceTo xs e).Sublist xs := by
  unfold jsSliceTo
  exact List.take_sublist _ _

/-- Concrete resolved options used by witnesses. -/
def ro0 : ResolvedOptions := ⟨true, true, none, none, none, "desc", none⟩

/-! ## Claim theorems -/

/-- C1: for every requested limit L > 0, a successful call to getLifelogs
returns a sequence of at most L records, for any sequence of pages the remote
store returns, including a final page that overshoots the remaining amount:
the responses list is universally quantified. -/
theorem getLifelogs_result_within_limit
    (apiKey : String) (o : LifelogParams) (tz : Option String)
    (responses : List (FetchOutcome LifelogsResponse))
    (l : Int) (hl : 0 < l) (ho : o.limit = some l)
    (res : List Lifelog) (trace : List RequestParams)
    (h : getLifelogs apiKey o tz responses = some (.ok (res, trace))) :
    (res.length : Int) ≤ l := by
  unfold getLifelogs at h
  rw [ho] at h
  cases hloop : lifelogsLoop apiKey (resolveOptions o tz) (some l) [] [] o.cursor responses with
  | none =>
      rw [hloop] at h
      exact absurd h (by simp)
  | some r =>
      rw [hloop] at h
      cases r with
      | error e => simp at h
      | ok pr =>
          obtain ⟨all, tr⟩ := pr
          simp only [Option.some.injEq, Except.ok.injEq, Prod.mk.injEq] at h
          obtain ⟨h1, -⟩ := h
          rw [← h1]
          simpa [applyLimitSlice] using jsSliceTo_length_le all l (le_of_lt hl)

/-- C1 witness: a concrete successful run with limit 3 whose single page is
empty; the theorem applied there bounds the result length by 3. -/
theorem getLifelogs_result_within_limit_witness :
    ((([] : List Lifelog).length : Int) ≤ 3) :=
  getLifelogs_result_within_limit "k" { limit := some 3 } none [okPage [] none] 3
    (by decide) rfl [] [⟨3, true, true, none, none, none, "desc", none, none⟩] (by rfl)

/-- C2: within one getLifelogs call, a page whose record count is strictly
below the batch size requested for it ends the aggregation with no further
request, whatever responses would have followed; and concretely, with limit
25 and batch size 10, a second page of only 4 records yields a result of
length 14 from exactly two requests. -/
theorem short_page_stops_aggregation :
    (∀ (apiKey : String) (ro : ResolvedOptions) (limit : Option Int)
       (acc : List Lifelog) (trace : List RequestParams) (cursor : Option String)
       (r : FetchOutcome LifelogsResponse)
       (rest : List (FetchOutcome LifelogsResponse)) (resp : LifelogsResponse),
       stopBeforeFetch limit acc.length = false →
       makeApiRequest apiKey r = .ok resp →
       ((pageLogs resp).length : Int) < fetchLimitFor limit acc.length →
       lifelogsLoop apiKey ro limit acc trace cursor (r :: rest)
         = some (.ok (acc ++ pageLogs resp,
             trace ++ [mkParams ro (fetchLimitFor limit acc.length) cursor])))
    ∧ runSummary (getLifelogs "k" { limit := some 25 } none
        [okPage ((List.range 10).map mkLog) (some "c1"),
         okPage ((List.range 4).map mkLog) (some "c2"),
         okPage ((List.range 10).map mkLog) (some "c3")])
        = some (some (14, [10, 10])) := by
  constructor
  · intro apiKey ro limit acc trace cursor r rest resp hstop hreq hshort
    simp only [lifelogsLoop, hstop, Bool.false_eq_true, if_false, hreq]
    simp [hshort]
  · decide

/-- C2 witness: the short-page rule applied at a concrete state with limit 25
and an empty first page (0 records against a requested batch of 10). -/
theorem short_page_stops_aggregation_witness :
    lifelogsLoop "k" ro0 (some 25) [] [] none [okPage [] (some "c")]
      = some (.ok ([], [mkParams ro0 10 none])) :=
  short_page_stops_aggregation.1 "k" ro0 (some 25) [] [] none (okPage [] (some "c"))
    [] { data := some ⟨[]⟩, meta := some ⟨some { nextCursor := some "c", count := 0 }⟩ }
    (by rfl) (by rfl) (by decide)

/-- C3: the batch size of each iteration is the minimum of the fixed page
size 10 and the remaining amount still needed, the remaining amount being
unbounded when no limit was given; consequently, a run with limit 25 against
a store holding at least 25 records issues exactly 3 requests of sizes 10,
10, 5 and returns 25 records. -/
theorem batch_size_is_min_of_page_and_remaining :
    (∀ (l : Int) (n : Nat), fetchLimitFor (some l) n = min 10 (l - (n : Int)))
    ∧ (∀ n : Nat, fetchLimitFor none n = 10)
    ∧ runSummary (getLifelogs "k" { limit := some 25 } none
        [okPage ((List.range 10).map mkLog) (some "c1"),
         okPage ((List.range 10).map mkLog) (some "c2"),
         okPage ((List.range 5).map mkLog) (some "c3"),
         okPage ((List.range 10).map mkLog) (some "c4")])
        = some (some (25, [10, 10, 5])) :=
  ⟨fun _ _ => rfl, fun _ => rfl, by decide⟩

/-- C4 counterexample: getLifelogs called with limit 0 (and with a negative
limit) does not reject the call; it breaks before the first request (the
trace is empty even though a page was available) and returns an empty
successful collection, not an invalid-parameter error. -/
theorem nonpositive_limit_not_rejected_by_client :
    getLifelogs "k" { limit := some 0 } none [okPage [mkLog 0] (some "c")]
      = some (.ok ([], []))
    ∧ getLifelogs "k" { limit := some (-3) } none [okPage [mkLog 0] (some "c")]
      = some (.ok ([], [])) :=
  ⟨rfl, rfl⟩

/-- C4 amended: a limit of zero or a negative limit never passes the tool
argument schema, whose limit field requires a positive integer, so such a
call is rejected as invalid parameters at the tool boundary before the
pagination loop starts; getLifelogs itself, invoked directly with a
nonpositive limit, fetches no page and returns an empty success. -/
theorem nonpositive_limit_schema_rejects :
    (∀ n : Int, n ≤ 0 → zodListLimitValid (some n) = false)
    ∧ (∀ (apiKey : String) (o : LifelogParams) (tz : Option String)
         (responses : List (FetchOutcome LifelogsResponse)) (l : Int),
         o.limit = some l → l ≤ 0 →
         getLifelogs apiKey o tz responses = some (.ok ([], []))) := by
  constructor
  · intro n hn
    simp only [zodListLimitValid, Bool.and_eq_false_iff, decide_eq_false_iff_not, not_lt]
    left
    omega
  · intro apiKey o tz responses l ho hl
    have hstop : stopBeforeFetch (some l) 0 = true := by
      simp only [stopBeforeFetch, decide_eq_true_eq]
      omega
    have hloop : lifelogsLoop apiKey (resolveOptions o tz) (some l) [] [] o.cursor responses
        = some (.ok ([], [])) := by
      cases responses with
      | nil => simp [lifelogsLoop, hstop]
      | cons r rest => simp [lifelogsLoop, hstop]
    unfold getLifelogs
    rw [ho, hloop]
    simp [applyLimitSlice, jsSliceTo]

/-- C4 witness: the amended claim applied at limit -1 with a page available:
the schema rejects, and the direct client call returns the empty success. -/
theorem nonpositive_limit_schema_rejects_witness :
    zodListLimitValid (some (-1)) = false
    ∧ getLifelogs "k" { limit := some (-1) } none [okPage [] none]
        = some (.ok ([], [])) :=
  ⟨nonpositive_limit_schema_rejects.1 (-1) (by decide),
   nonpositive_limit_schema_rejects.2 "k" { limit := some (-1) } none
     [okPage [] none] (-1) rfl (by decide)⟩

/-- Loop invariant for C5: every request recorded in the trace of a completed
lifelogsLoop run either was already in the starting trace or carries exactly
the date, start and end filters of the resolved options. -/
lemma lifelogsLoop_trace_fields (apiKey : String) (ro : ResolvedOptions)
    (limit : Option Int) :
    ∀ (responses : List (FetchOutcome LifelogsResponse)) (acc : List Lifelog)
      (tr : List RequestParams) (cursor : Option String)
      (res : List Lifelog) (trace : List RequestParams),
      lifelogsLoop apiKey ro limit acc tr cursor responses = some (.ok (res, trace)) →
      ∀ req ∈ trace, req ∈ tr ∨
        (req.date = ro.date ∧ req.start = ro.start ∧ req.endP = ro.endP) := by
  intro responses
  induction responses with
  | nil =>
      intro acc tr cursor res trace h req hreq
      simp only [lifelogsLoop] at h
      split at h
      · simp only [Option.some.injEq, Except.ok.injEq, Prod.mk.injEq] at h
        exact Or.inl (h.2 ▸ hreq)
      · exact absurd h (by simp)
  | cons r rest ih =>
      intro acc tr cursor res trace h req hreq
      simp only [lifelogsLoop] at h
      split at h
      · simp only [Option.some.injEq, Except.ok.injEq, Prod.mk.injEq] at h
        exact Or.inl (h.2 ▸ hreq)
      · split at h
        · exact absurd h (by simp)
        · split at h
          · simp only [Option.some.injEq, Except.ok.injEq, Prod.mk.injEq] at h
            rw [← h.2] at hreq
            rcases List.mem_append.mp hreq with h3 | h3
            · exact Or.inl h3
            · right
              simp only [List.mem_singleton] at h3
              subst h3
              exact ⟨rfl, rfl, rfl⟩
          · rcases ih _ _ _ _ _ h req hreq with h3 | h3
            · rcases List.mem_append.mp h3 with h4 | h4
              · exact Or.inl h4
              · right
                simp only [List.mem_singleton] at h4
                subst h4
                exact ⟨rfl, rfl, rfl⟩
            · exact Or.inr h3

/-- C5 counterexample: a criteria holding both the single-date filter and the
range filter is not rejected; getLifelogs dispatches a network request whose
query parameters carry the date, start and end filters all at once. -/
theorem both_date_and_range_dispatched :
    getLifelogs "k"
      { date := some "2025-01-01", start := some "2025-01-01",
        endP := some "2025-01-02", limit := some 5 } none [okPage [] none]
      = some (.ok ([],
          [{ limit := 5, includeMarkdown := true, includeHeadings := true,
             date := some "2025-01-01", start := some "2025-01-01",
             endP := some "2025-01-02", direction := "desc", timezone := none,
             cursor := none }])) := rfl

/-- C5 amended: getLifelogs performs no mutual-exclusivity validation; it
forwards the date, start and end filters of its criteria unchanged into every
request it dispatches.  Single-date and range selection are kept exclusive
only at the tool layer: the by-date handler never sets a range filter and the
by-range handler never sets a single-date filter. -/
theorem no_mutual_exclusivity_check :
    (∀ date limit tz im ih dir,
        (listByDateCriteria date limit tz im ih dir).start = none
        ∧ (listByDateCriteria date limit tz im ih dir).endP = none)
    ∧ (∀ s e limit tz im ih dir,
        (listByRangeCriteria s e limit tz im ih dir).date = none)
    ∧ (∀ (apiKey : String) (o : LifelogParams) (tz : Option String)
         (responses : List (FetchOutcome LifelogsResponse))
         (res : List Lifelog) (trace : List RequestParams),
         getLifelogs apiKey o tz responses = some (.ok (res, trace)) →
         ∀ req ∈ trace, req.date = o.date ∧ req.start = o.start ∧ req.endP = o.endP) := by
  refine ⟨fun _ _ _ _ _ _ => ⟨rfl, rfl⟩, fun _ _ _ _ _ _ _ => rfl, ?_⟩
  intro apiKey o tz responses res trace h req hreq
  unfold getLifelogs at h
  cases hloop : lifelogsLoop apiKey (resolveOptions o tz) o.limit [] [] o.cursor responses with
  | none => rw [hloop] at h; exact absurd h (by simp)
  | some r =>
      rw [hloop] at h
      cases r with
      | error e => simp at h
      | ok pr =>
          obtain ⟨all, tr⟩ := pr
          simp only [Option.some.injEq, Except.ok.injEq, Prod.mk.injEq] at h
          rw [← h.2] at hreq
          rcases lifelogsLoop_trace_fields apiKey (resolveOptions o tz) o.limit
              responses [] [] o.cursor all tr hloop req hreq with h3 | h3
          · exact absurd h3 (List.not_mem_nil req)
          · exact h3

/-- C5 amended witness: the forwarding property applied to the run of the
counterexample input, whose one request indeed carries the date and range
filters of the criteria. -/
theorem no_mutual_exclusivity_check_witness :
    ({ limit := 5, includeMarkdown := true, includeHeadings := true,
       date := some "2025-01-01", start := some "2025-01-01",
       endP := some "2025-01-02", direction := "desc", timezone := none,
       cursor := none } : RequestParams).date = some "2025-01-01"
    ∧ ({ limit := 5, includeMarkdown := true, includeHeadings := true,
         date := some "2025-01-01", start := some "2025-01-01",
         endP := some "2025-01-02", direction := "desc", timezone := none,
         cursor := none } : RequestParams).start = some "2025-01-01"
    ∧ ({ limit := 5, includeMarkdown := true, includeHeadings := true,
         date := some "2025-01-01", start := some "2025-01-01",
         endP := some "2025-01-02", direction := "desc", timezone := none,
         cursor := none } : RequestParams).endP = some "2025-01-02" :=
  no_mutual_exclusivity_check.2.2 "k"
    { date := some "2025-01-01", start := some "2025-01-01",
      endP := some "2025-01-02", limit := some 5 } none [okPage [] none] []
    [{ limit := 5, includeMarkdown := true, includeHeadings := true,
       date := some "2025-01-01", start := some "2025-01-01",
       endP := some "2025-01-02", direction := "desc", timezone := none,
       cursor := none }] (by rfl) _ (by simp)

/-- C6: a well-formed identifier the store does not recognize, surfaced by
the code as an ok response that carries no lifelog, yields the dedicated
not-found error; that outcome is distinguishable by its message from the
generic API error produced for a non-ok response, even when the latter also
carries HTTP status 404. -/
theorem getLifelogById_unrecognized_is_notFound
    (apiKey lifelogId : String) (o : ByIdOptions) (hk : apiKey ≠ "") :
    getLifelogById apiKey lifelogId o (.ok none) = .error (notFoundError lifelogId)
    ∧ (notFoundError lifelogId).status = some 404
    ∧ (∀ (statusText body : String) (e : LimitlessApiError),
        getLifelogById apiKey lifelogId o (.httpError 404 statusText body) = .error e →
        e.status = some 404 ∧ e.message ≠ (notFoundError lifelogId).message) := by
  refine ⟨?_, rfl, ?_⟩
  · simp [getLifelogById, makeApiRequest, hk]
  · intro statusText body e h
    simp only [getLifelogById, makeApiRequest, if_neg hk, Except.error.injEq] at h
    subst h
    refine ⟨rfl, ?_⟩
    unfold apiErrorMessage notFoundError
    exact append_ne_append "Limitless API Error: " (toString 404 ++ (" " ++ statusText))
      "Lifelog with ID " (lifelogId ++ " not found") 3 (by decide) (by decide) (by decide)

/-- C6 witness: the theorem applied with key k and identifier x, the generic
API error being the one produced for an HTTP 404 response. -/
theorem getLifelogById_unrecognized_is_notFound_witness :
    getLifelogById "k" "x" {} (.ok none) = .error (notFoundError "x")
    ∧ ((⟨apiErrorMessage 404 "Not Found", some 404, some ""⟩ : LimitlessApiError).status
          = some 404
        ∧ (⟨apiErrorMessage 404 "Not Found", some 404, some ""⟩
            : LimitlessApiError).message ≠ (notFoundError "x").message) :=
  ⟨(getLifelogById_unrecognized_is_notFound "k" "x" {} (by decide)).1,
   (getLifelogById_unrecognized_is_notFound "k" "x" {} (by decide)).2.2
     "Not Found" "" ⟨apiErrorMessage 404 "Not Found", some 404, some ""⟩ (by rfl)⟩

/-- C7: a missing or empty access credential is a fatal configuration error
at startup; a direct client call with an empty key yields the dedicated
missing-key error whatever the network would have answered, for the get-by-id
operation and for the aggregation as soon as it would fetch; and that error
is distinguishable by its message from every error produced on a per-request
failure path with a non-empty key. -/
theorem missing_credential_is_config_error :
    (serverStartup none = .fatalConfigError ∧ serverStartup (some "") = .fatalConfigError)
    ∧ (∀ (r : FetchOutcome (Option Lifelog)) (lifelogId : String) (o : ByIdOptions),
        getLifelogById "" lifelogId o r = .error missingKeyError)
    ∧ (∀ (o : LifelogParams) (tz : Option String) (r : FetchOutcome LifelogsResponse)
         (rest : List (FetchOutcome LifelogsResponse)),
        stopBeforeFetch o.limit 0 = false →
        getLifelogs "" o tz (r :: rest) = some (.error missingKeyError))
    ∧ (∀ (T : Type) (key : String) (r : FetchOutcome T) (e : LimitlessApiError),
        key ≠ "" → makeApiRequest key r = .error e →
        e.message ≠ missingKeyError.message) := by
  refine ⟨⟨rfl, rfl⟩, fun _ _ _ => rfl, ?_, ?_⟩
  · intro o tz r rest h
    unfold getLifelogs
    have : lifelogsLoop "" (resolveOptions o tz) o.limit [] [] o.cursor (r :: rest)
        = some (.error missingKeyError) := by
      simp [lifelogsLoop, h, makeApiRequest]
    rw [this]
  · intro T key r e hk h
    unfold makeApiRequest at h
    rw [if_neg hk] at h
    cases r with
    | ok body => exact absurd h (by simp)
    | httpError status statusText body =>
        simp only [Except.error.injEq] at h
        subst h
        unfold apiErrorMessage missingKeyError
        exact append_ne_lit "Limitless API Error: "
          (toString status ++ (" " ++ statusText))
          "Limitless API key is missing. Please set LIMITLESS_API_KEY environment variable."
          15 (by decide) (by decide)
    | timeout =>
        simp only [Except.error.injEq] at h
        subst h
        decide
    | networkError msg =>
        simp only [Except.error.injEq] at h
        subst h
        unfold networkErrorMessage missingKeyError
        exact append_ne_lit "Network error calling Limitless API: " msg
          "Limitless API key is missing. Please set LIMITLESS_API_KEY environment variable."
          1 (by decide) (by decide)

/-- C7 witness: the aggregation with an empty key and a page available yields
the missing-key error, and with key k the timeout error message differs from
the missing-key message. -/
theorem missing_credential_is_config_error_witness :
    getLifelogs "" { limit := some 5 } none [okPage [] none]
      = some (.error missingKeyError)
    ∧ timeoutMessage ≠ missingKeyError.message :=
  ⟨missing_credential_is_config_error.2.2.1 { limit := some 5 } none
     (okPage [] none) [] (by rfl),
   missing_credential_is_config_error.2.2.2 (Option Lifelog) "k" .timeout
     ⟨timeoutMessage, some 504, none⟩ (by decide) (by rfl)⟩

/-- Follows the words of the spec for the search filter, for comparison with
the embedded code: a case-insensitive substring test of the term against the
title and against the body text, where absent fields never match. -/
def specSearchFilter (term : String) (log : Lifelog) : Prop :=
  (∃ t, log.title = some t ∧ strIncludes (strToLower t) (strToLower term) = true)
  ∨ (∃ m, log.markdown = some m ∧ strIncludes (strToLower m) (strToLower term) = true)

/-- Candidate record whose body text is present but empty. -/
def emptyBodyLog : Lifelog :=
  { id := "a", markdown := some "", startTime := "s", endTime := "e" }

/-- C8 counterexample: with the empty search term and a window holding one
candidate whose title is absent and whose body text is the empty string, the
body contains the term under the case-insensitive substring test of the spec,
yet the operation returns no results: the JavaScript truthiness guard on the
markdown field makes an empty body behave as absent, so the claim as stated
fails at this input. -/
theorem search_empty_body_counterexample :
    searchResults { search_term := "" } [emptyBodyLog] = []
    ∧ specSearchFilter "" emptyBodyLog :=
  ⟨rfl, Or.inr ⟨"", rfl, rfl⟩⟩

/-- C8 amended: the search returns exactly the candidates whose title or body
text contains the term under a case-insensitive substring test, except that a
present-but-empty body text never matches through the body test; a candidate
with both title and body absent never matches; matches keep the relative
order of the window; and the result is truncated to the result limit when a
positive one is given. -/
theorem search_filter_characterization :
    (∀ (term : String) (log : Lifelog),
        matchesTerm term log = true ↔
          ((∃ t, log.title = some t
              ∧ strIncludes (strToLower t) (strToLower term) = true)
           ∨ (∃ m, log.markdown = some m ∧ m ≠ ""
              ∧ strIncludes (strToLower m) (strToLower term) = true)))
    ∧ (∀ (term : String) (log : Lifelog), log.title = none → log.markdown = none →
        matchesTerm term log = false)
    ∧ (∀ (args : SearchArgs) (window : List Lifelog),
        searchResults args window
          = jsTruncate (window.filter (matchesTerm args.search_term)) args.limit)
    ∧ (∀ (args : SearchArgs) (window : List Lifelog),
        (searchResults args window).Sublist window)
    ∧ (∀ (args : SearchArgs) (window : List Lifelog) (l : Int),
        args.limit = some l → 0 < l →
        ((searchResults args window).length : Int) ≤ l) := by
  refine ⟨?_, ?_, fun _ _ => rfl, ?_, ?_⟩
  · intro term log
    unfold matchesTerm
    cases log.title with
    | none =>
        cases log.markdown with
        | none => simp
        | some m => by_cases hm : m = "" <;> simp [hm]
    | some t =>
        cases log.markdown with
        | none => simp
        | some m => by_cases hm : m = "" <;> simp [hm]
  · intro term log h1 h2
    unfold matchesTerm
    rw [h1, h2]
    rfl
  · intro args window
    have h1 : (window.filter (matchesTerm args.search_term)).Sublist window :=
      List.filter_sublist window
    have h2 : (searchResults args window).Sublist
        (window.filter (matchesTerm args.search_term)) := by
      unfold searchResults
      cases hl : args.limit with
      | none => exact List.Sublist.refl _
      | some n =>
          simp only [jsTruncate]
          split
          · exact List.Sublist.refl _
          · exact jsSliceTo_sublist _ n
    exact h2.trans h1
  · intro args window l hl hpos
    unfold searchResults
    rw [hl]
    simp only [jsTruncate]
    rw [if_neg (by omega : ¬ l = 0)]
    exact jsSliceTo_length_le _ l (le_of_lt hpos)

/-- C8 amended witness: a candidate without title and body never matches, and
with result limit 2 the result length is bounded by 2. -/
theorem search_filter_characterization_witness :
    matchesTerm "x" { id := "b", startTime := "s", endTime := "e" } = false
    ∧ ((searchResults { search_term := "x", limit := some 2 } [emptyBodyLog]).length
        : Int) ≤ 2 :=
  ⟨search_filter_characterization.2.1 "x" { id := "b", startTime := "s", endTime := "e" }
     rfl rfl,
   search_filter_characterization.2.2.2.2 { search_term := "x", limit := some 2 }
     [emptyBodyLog] 2 rfl (by decide)⟩

/-- C9: for a search invocation whose window fetch succeeds with a non-empty
window, the scanned-candidates count surfaced by the outcome equals the
length of the window getLifelogs actually returned, and it is carried in a
field separate from the match count, which equals the number of displayed
results. -/
theorem search_scanned_count_is_window_size
    (apiKey : String) (args : SearchArgs) (tz : Option String)
    (responses : List (FetchOutcome LifelogsResponse))
    (window : List Lifelog) (trace : List RequestParams)
    (h : getLifelogs apiKey (searchCriteria args) tz responses
          = some (.ok (window, trace)))
    (hw : window ≠ []) :
    (searchOutcome args window).scanned = some window.length
    ∧ (searchOutcome args window).matchCount
        = some (searchResults args window).length
    ∧ searchRun apiKey args tz responses = some (.ok (searchOutcome args window)) := by
  have hlen : ¬ window.length = 0 := fun hh => hw (List.length_eq_zero.mp hh)
  have key : searchOutcome args window =
      if (searchResults args window).length = 0
      then SearchOutcome.noMatches args.search_term window.length
      else SearchOutcome.results (searchResults args window).length window.length
             (searchResults args window) args.limit := by
    unfold searchOutcome
    rw [if_neg hlen]
  refine ⟨?_, ?_, ?_⟩
  · rw [key]
    split <;> rfl
  · rw [key]
    split
    · rename_i hz
      simp only [SearchOutcome.matchCount, hz]
    · rfl
  · unfold searchRun
    rw [h]

/-- Concrete matching record for the C9 witness. -/
def budgetLog : Lifelog :=
  { id := "1", title := some "Budget meeting", startTime := "s", endTime := "e" }

/-- C9 witness: a store holding one record while the default fetch scope is
20 yields a scanned count of 1, the actual window size, not the requested
scope. -/
theorem search_scanned_count_is_window_size_witness :
    (searchOutcome { search_term := "budget" } [budgetLog]).scanned = some 1
    ∧ (1 : Nat) ≠ 20 :=
  ⟨(search_scanned_count_is_window_size "k" { search_term := "budget" } none
      [okPage [budgetLog] none] [budgetLog]
      [{ limit := 10, includeMarkdown := true, includeHeadings := true,
         date := none, start := none, endP := none, direction := "desc",
         timezone := none, cursor := none }] (by rfl) (by simp)).1,
   by decide⟩

/-- C10: the criteria the search handler passes to getLifelogs always carries
includeMarkdown true, even when the caller supplied includeMarkdown false;
the flag of the caller affects neither the candidate fetch nor the local
matching, although the schema of the operation accepts the field. -/
theorem search_always_fetches_markdown :
    (∀ args : SearchArgs, (searchCriteria args).includeMarkdown = some true)
    ∧ (∀ (args : SearchArgs) (b : Bool),
        searchCriteria { args with includeMarkdown := b } = searchCriteria args)
    ∧ (∀ (args : SearchArgs) (b : Bool) (window : List Lifelog),
        searchOutcome { args with includeMarkdown := b } window
          = searchOutcome args window)
    ∧ (searchCriteria { search_term := "x", includeMarkdown := false }).includeMarkdown
        = some true :=
  ⟨fun _ => rfl, fun _ _ => rfl, fun _ _ _ => rfl, rfl⟩
